import Mathlib

/-! Slash-command dispatcher of the MS Teams Meetings plugin.

A shallow embedding of `server/command.go`.

* Go strings are Lean strings; `[]string` is `List String`.
* A Go `error` / `*model.AppError` result that may be `nil` is an `Option`.
* Every call that leaves the dispatcher (platform API, `p.disconnect`,
  `p.trackDisconnect`) is appended to a `Trace`; what the callee answers is a
  function of the calls made before it and of its arguments, so the
  environment is arbitrary but deterministic.
* A Go run-time panic (index out of range, nil dereference) is the `panic`
  constructor of `Outcome`.
-/

namespace MSTeamsMeetings

/-! ## Go standard library used by the file -/

/-- Go `unicode.IsSpace`: the Latin-1 spaces and the `White_Space` table. -/
def IsSpace (r : Char) : Bool :=
  let n := r.toNat
  if n ≤ 0xFF then
    n == 0x09 || n == 0x0A || n == 0x0B || n == 0x0C || n == 0x0D || n == 0x20
      || n == 0x85 || n == 0xA0
  else
    n == 0x1680 || (decide (0x2000 ≤ n) && decide (n ≤ 0x200A)) || n == 0x2028
      || n == 0x2029 || n == 0x202F || n == 0x205F || n == 0x3000

/-- Scan of `strings.Fields`: `cur` is the field being read, reversed. -/
def fieldsFrom : List Char → List Char → List String
  | cur, [] => if cur.isEmpty then [] else [String.mk cur.reverse]
  | cur, r :: rs =>
    if IsSpace r then
      if cur.isEmpty then fieldsFrom [] rs
      else String.mk cur.reverse :: fieldsFrom [] rs
    else fieldsFrom (r :: cur) rs

/-- Go `strings.Fields`: the maximal runs of non-space characters, in order. -/
def Fields (s : String) : List String :=
  fieldsFrom [] s.data

/-- Scan of `strings.ReplaceAll` for a non-empty `old`; `skip` counts the
characters of a match that are still to be dropped. -/
def replaceAllFrom (old new : List Char) : Nat → List Char → List Char
  | _, [] => []
  | skip + 1, _ :: rs => replaceAllFrom old new skip rs
  | 0, r :: rs =>
    if old.isPrefixOf (r :: rs) then new ++ replaceAllFrom old new (old.length - 1) rs
    else r :: replaceAllFrom old new 0 rs

/-- Go `strings.ReplaceAll`: non-overlapping matches of `old`, left to right;
an empty `old` matches before every character and at the end. -/
def ReplaceAll (s old new : String) : String :=
  if old.data.isEmpty then
    String.mk (new.data ++ s.data.flatMap (fun r => r :: new.data))
  else
    String.mk (replaceAllFrom old.data new.data 0 s.data)

/-! ## Data model (`model` package of the platform) -/

/-- Go `*model.AppError`. -/
structure AppError where
  Where : String
  Message : String
  DetailedError : String
  deriving DecidableEq, Repr

/-- Method `(*AppError).Error`. -/
def AppError.Error (er : AppError) : String :=
  er.Where ++ ": " ++ er.Message ++ ", " ++ er.DetailedError

/-- Values of the Go interface `error` that reach this file. -/
inductive GoError where
  | app (e : AppError)
  | withMessage (cause : GoError) (msg : String)
  | other (text : String)
  deriving DecidableEq, Repr

/-- Method `Error` of an `error` value. -/
def GoError.Error : GoError → String
  | .app e => e.Error
  | .withMessage cause msg => msg ++ ": " ++ GoError.Error cause
  | .other text => text

/-- Function `errors.Wrap` of `github.com/pkg/errors`: nil stays nil. -/
def Wrap (err : Option GoError) (message : String) : Option GoError :=
  match err with
  | none => none
  | some e => some (.withMessage e message)

/-- Go `*model.User`, the fields read here. -/
structure User where
  Id : String
  Username : String
  deriving DecidableEq, Repr

/-- Go `*model.Channel`, the fields read here. -/
structure Channel where
  Id : String
  Type_ : String
  deriving DecidableEq, Repr

/-- Method `(*Channel).IsGroupOrDirect`: type `CHANNEL_DIRECT` ("D") or
`CHANNEL_GROUP` ("G"). -/
def Channel.IsGroupOrDirect (o : Channel) : Bool :=
  o.Type_ == "D" || o.Type_ == "G"

/-- Go `model.ChannelMember`. -/
structure ChannelMember where
  ChannelId : String
  UserId : String
  deriving DecidableEq, Repr

/-- Go `model.ChannelMembers`, a slice of members. -/
abbrev ChannelMembers := List ChannelMember

/-- Values stored in `Post.Props` (`interface{}`) by this file. -/
inductive PropValue where
  | str (s : String)
  | bool (b : Bool)
  deriving DecidableEq, Repr

/-- Go `*model.Post`, the fields set here; `Props` keeps the literal's order. -/
structure Post where
  UserId : String
  ChannelId : String
  Message : String
  Type_ : String
  Props : List (String × PropValue)
  deriving DecidableEq, Repr

/-- Read of `post.Props[key]`. -/
def Post.GetProp (post : Post) (key : String) : Option PropValue :=
  post.Props.lookup key

/-- Go `*model.CommandArgs`, the fields read here. -/
structure CommandArgs where
  Command : String
  UserId : String
  ChannelId : String
  deriving DecidableEq, Repr

/-- Go `model.CommandResponse`; the dispatcher only ever builds the zero value. -/
structure CommandResponse where
  ResponseType : String
  Text : String
  deriving DecidableEq, Repr

/-- Zero value `model.CommandResponse{}`. -/
def CommandResponse.empty : CommandResponse :=
  { ResponseType := "", Text := "" }

/-! ## Calls that leave the dispatcher -/

/-- One call made by the dispatcher to a collaborator. -/
inductive Call where
  | GetUser (userID : String)
  | GetChannel (channelID : String)
  | GetChannelMembers (channelID : String) (page perPage : Int)
  | CreatePost (post : Post)
  | SendEphemeralPost (userID : String) (post : Post)
  | LogDebug (msg : String)
  | LogWarn (msg : String) (keyValuePairs : List String)
  | disconnect (userID : String)
  | trackDisconnect (userID : String)
  deriving DecidableEq, Repr

/-- Calls made so far, oldest first. -/
abbrev Trace := List Call

/-- Platform API `plugin.API`: each answer depends on the calls made before. -/
structure API where
  GetUser : Trace → String → Option User × Option AppError
  GetChannel : Trace → String → Option Channel × Option AppError
  GetChannelMembers : Trace → String → Int → Int → Option ChannelMembers × Option AppError
  CreatePost : Trace → Post → Option Post × Option AppError

/-- Go `*Plugin`: the API, the bot identity, the method `disconnect` and the
package constants `postTypeDialogWarn` and `msteamsProviderName`, which are
declared in other files and taken as given. -/
structure Plugin where
  API : API
  botUserID : String
  disconnect : Trace → String → Option GoError
  postTypeDialogWarn : PropValue
  msteamsProviderName : PropValue

/-- Go run-time panics reachable in this file. -/
inductive Panic where
  | indexOutOfRange (index length : Nat)
  | nilDereference
  deriving DecidableEq, Repr

/-- Result of running a method: it returns `value` or panics, and in both
cases `trace` holds every call made up to that point. -/
inductive Outcome (α : Type) where
  | ok (value : α) (trace : Trace)
  | panic (p : Panic) (trace : Trace)
  deriving DecidableEq, Repr

/-- Trace at the end of a run. -/
def Outcome.trace {α : Type} : Outcome α → Trace
  | .ok _ t => t
  | .panic _ t => t

/-! ## `server/command.go` -/

def commandHelp : String :=
  "* |/mstmeetings start| - Start an MS Teams meeting.\n\t* |/mstmeetings disconnect| - Disconnect from Mattermost"

def tooManyParametersText : String := "Too many parameters."

/-- Method `postCommandResponse`: one ephemeral post, result discarded. -/
def postCommandResponse (p : Plugin) (t : Trace) (args : CommandArgs) (text : String) : Trace :=
  let post : Post :=
    { UserId := p.botUserID, ChannelId := args.ChannelId, Message := text, Type_ := "", Props := [] }
  t ++ [Call.SendEphemeralPost args.UserId post]

/-- Method `getHelpText`. -/
def getHelpText : String :=
  "###### Mattermost MS Teams Meetings Plugin - Slash Command Help\n" ++ ReplaceAll commandHelp "|" "`"

/-- Method `handleHelp`. -/
def handleHelp (_p : Plugin) (t : Trace) (_args : List String) (_extra : CommandArgs) :
    Outcome (String × Option GoError) :=
  .ok (getHelpText, none) t

/-- Method `handleStartConfirm`. -/
def handleStartConfirm (p : Plugin) (t : Trace) (args : List String) (extra : CommandArgs) :
    Outcome (String × Option GoError) :=
  if args.length > 1 then
    .ok (tooManyParametersText, none) t
  else
    let userID := extra.UserId
    let t1 := t ++ [Call.GetUser userID]
    match p.API.GetUser t userID with
    | (_, some appErr) => .ok ("User not found.", Wrap (some (.app appErr)) "cannot get user") t1
    | (user, none) =>
      let channelID := extra.ChannelId
      let t2 := t1 ++ [Call.GetChannel channelID]
      match p.API.GetChannel t1 channelID with
      | (_, some err) => .ok ("", some (.app err)) t2
      | (none, none) => .panic .nilDereference t2
      | (some channel, none) =>
        -- lines 102-121: build the post from `message` and submit it
        let createPost (message : String) (t5 : Trace) : Outcome (String × Option GoError) :=
          match user with
          | none => .panic .nilDereference t5
          | some user =>
            let post : Post :=
              { UserId := p.botUserID
                ChannelId := channelID
                Message := message
                Type_ := "custom_mstmeetings"
                Props :=
                  [ ("type", .str "custom_mstmeetings"),
                    ("meeting_status", p.postTypeDialogWarn),
                    ("meeting_personal", .bool true),
                    ("meeting_creator_username", .str user.Username),
                    ("meeting_provider", p.msteamsProviderName),
                    ("message", .str message) ] }
            let t6 := t5 ++ [Call.CreatePost post]
            match p.API.CreatePost t5 post with
            | (_, some appErr) => .ok ("", some (.app appErr)) t6
            | (_, none) => .ok ("", none) t6
        let message := ""
        if channel.IsGroupOrDirect then
          let t3 := t2 ++ [Call.GetChannelMembers channelID 0 100]
          match p.API.GetChannelMembers t2 channelID 0 100 with
          | (_, some err) => .ok ("", some (.app err)) t3
          | (none, none) => createPost message t3
          | (some members, none) =>
            let t4 := t3 ++ [Call.LogDebug
              (toString members.length ++ " members in channel " ++ channelID)]
            let membersCount := members.length
            createPost (message ++ ("\n" ++ ("You are about a create a meeting in a channel with "
              ++ toString membersCount ++ " members"))) t4
        else createPost message t2

/-- Method `handleDisconnect`; `p.trackDisconnect` is recorded as a call. -/
def handleDisconnect (p : Plugin) (t : Trace) (args : List String) (extra : CommandArgs) :
    Outcome (String × Option GoError) :=
  if args.length > 1 then
    .ok (tooManyParametersText, none) t
  else
    let t1 := t ++ [Call.disconnect extra.UserId]
    match p.disconnect t extra.UserId with
    | some err => .ok ("Failed to disconnect the user, err=" ++ err.Error, none) t1
    | none =>
      let t2 := t1 ++ [Call.trackDisconnect extra.UserId]
      .ok ("User disconnected from MS Teams Meetings.", none) t2

/-- Method `executeCommand`. -/
def executeCommand (p : Plugin) (t : Trace) (args : CommandArgs) :
    Outcome (String × Option GoError) :=
  let split := Fields args.Command
  match split[0]? with
  | none => .panic (.indexOutOfRange 0 split.length) t
  | some command =>
    if command != "/mstmeetings" then
      .ok ("Command '" ++ command ++ "' is not /mstmeetings. Please try again.", none) t
    else if split.length > 1 then
      match split[1]? with
      | none => .panic (.indexOutOfRange 1 split.length) t
      | some action =>
        if action == "start" then handleStartConfirm p t (split.drop 1) args
        else if action == "disconnect" then handleDisconnect p t (split.drop 1) args
        else if action == "help" then handleHelp p t (split.drop 1) args
        else .ok ("Unknown action `" ++ action ++ "`.\n" ++ getHelpText, none) t
    else
      handleHelp p t split args

/-- Method `ExecuteCommand`, the entry point called by the platform. -/
def ExecuteCommand (p : Plugin) (t : Trace) (args : CommandArgs) :
    Outcome (CommandResponse × Option AppError) :=
  match executeCommand p t args with
  | .panic e t1 => .panic e t1
  | .ok (msg, err) t1 =>
    let t2 := match err with
      | some e => t1 ++ [Call.LogWarn "failed to execute command" ["error", e.Error]]
      | none => t1
    let t3 := if msg != "" then postCommandResponse p t2 args msg else t2
    .ok (CommandResponse.empty, none) t3

/-! ## A concrete environment for evaluating the definitions -/

/-- An environment in which every lookup succeeds in an open channel. -/
def demoPlugin : Plugin :=
  { API :=
      { GetUser := fun _ uid => (some { Id := uid, Username := "alice" }, none)
        GetChannel := fun _ cid => (some { Id := cid, Type_ := "O" }, none)
        GetChannelMembers := fun _ cid _ _ =>
          (some [{ ChannelId := cid, UserId := "u1" }, { ChannelId := cid, UserId := "u2" }], none)
        CreatePost := fun _ post => (some post, none) }
    botUserID := "bot"
    disconnect := fun _ _ => none
    postTypeDialogWarn := .str "WARN"
    msteamsProviderName := .str "Microsoft Teams Meetings" }

/-- An environment with a direct channel of two members. -/
def directPlugin : Plugin :=
  { demoPlugin with
    API := { demoPlugin.API with GetChannel := fun _ cid => (some { Id := cid, Type_ := "D" }, none) } }

/-- An environment in which the user lookup and the disconnect both fail. -/
def failingPlugin : Plugin :=
  { demoPlugin with
    API := { demoPlugin.API with
      GetUser := fun _ _ => (none, some { Where := "GetUser", Message := "no such user", DetailedError := "" }) }
    disconnect := fun _ _ => some (.other "token not found") }

/-! ## Observations on a trace -/

/-- Posts submitted to `CreatePost`, in order. -/
def createdPosts (t : Trace) : List Post :=
  t.filterMap fun c => match c with
    | .CreatePost post => some post
    | _ => none

/-- Ephemeral posts sent, each with the user it was sent to, in order. -/
def ephemeralPosts (t : Trace) : List (String × Post) :=
  t.filterMap fun c => match c with
    | .SendEphemeralPost userID post => some (userID, post)
    | _ => none

/-- Users for whom a disconnect analytics event was recorded, in order. -/
def trackedDisconnects (t : Trace) : List String :=
  t.filterMap fun c => match c with
    | .trackDisconnect userID => some userID
    | _ => none

/-! ## Tokenisation -/

theorem fieldsFrom_all_space (cs : List Char) (h : ∀ c ∈ cs, IsSpace c = true) :
    fieldsFrom [] cs = [] := by
  induction cs with
  | nil => simp [fieldsFrom]
  | cons c cs ih =>
    have hc : IsSpace c = true := h c (List.mem_cons_self c cs)
    have hcs : ∀ d ∈ cs, IsSpace d = true := fun d hd => h d (List.mem_cons_of_mem c hd)
    simp [fieldsFrom, hc, ih hcs]

theorem Fields_all_space (s : String) (h : ∀ c ∈ s.data, IsSpace c = true) : Fields s = [] :=
  fieldsFrom_all_space s.data h

/-! ## The dispatcher `executeCommand` -/

/-- C1 (the code breaks the claim): on a command text that is empty or holds
only white space the token list is empty and `executeCommand` does not return
a result; reading `split[0]` panics with index out of range, before any call
is made. -/
theorem executeCommand_blank_command_panics (p : Plugin) (t : Trace) (args : CommandArgs)
    (h : ∀ c ∈ args.Command.data, IsSpace c = true) :
    executeCommand p t args = Outcome.panic (Panic.indexOutOfRange 0 0) t := by
  simp [executeCommand, Fields_all_space args.Command h]

theorem executeCommand_blank_command_panics_witness :
    executeCommand demoPlugin [] ⟨" \t ", "user1", "chan1"⟩
      = Outcome.panic (Panic.indexOutOfRange 0 0) [] :=
  executeCommand_blank_command_panics demoPlugin [] ⟨" \t ", "user1", "chan1"⟩ (by decide)

/-- C3: trigger, then "start" or "disconnect", then two or more further
tokens: the result is exactly "Too many parameters." with a nil error, and
the trace is unchanged, so no call left the dispatcher. -/
theorem executeCommand_too_many_parameters (p : Plugin) (t : Trace) (args : CommandArgs)
    (action x y : String) (rest : List String)
    (hf : Fields args.Command = "/mstmeetings" :: action :: x :: y :: rest)
    (ha : action = "start" ∨ action = "disconnect") :
    executeCommand p t args = Outcome.ok ("Too many parameters.", none) t := by
  rcases ha with rfl | rfl <;>
    simp [executeCommand, hf, handleStartConfirm, handleDisconnect, tooManyParametersText]

theorem executeCommand_too_many_parameters_witness :
    executeCommand demoPlugin [] ⟨"/mstmeetings disconnect extra1 extra2", "user1", "chan1"⟩
      = Outcome.ok ("Too many parameters.", none) [] :=
  executeCommand_too_many_parameters demoPlugin []
    ⟨"/mstmeetings disconnect extra1 extra2", "user1", "chan1"⟩ "disconnect" "extra1" "extra2" []
    (by decide) (Or.inr rfl)

/-- C4: a first token other than "/mstmeetings" gives the correction text
naming that token, a nil error and an unchanged trace, whatever follows. -/
theorem executeCommand_wrong_trigger (p : Plugin) (t : Trace) (args : CommandArgs)
    (command : String) (rest : List String)
    (hf : Fields args.Command = command :: rest) (hc : command ≠ "/mstmeetings") :
    executeCommand p t args
      = Outcome.ok ("Command '" ++ command ++ "' is not /mstmeetings. Please try again.", none) t := by
  simp [executeCommand, hf, hc]

theorem executeCommand_wrong_trigger_witness :
    executeCommand demoPlugin [] ⟨"/wrongcommand start", "user1", "chan1"⟩
      = Outcome.ok ("Command '/wrongcommand' is not /mstmeetings. Please try again.", none) [] :=
  executeCommand_wrong_trigger demoPlugin [] ⟨"/wrongcommand start", "user1", "chan1"⟩
    "/wrongcommand" ["start"] (by decide) (by decide)

set_option maxRecDepth 100000 in
/-- The help text, evaluated: the header line, then `commandHelp` with each
bar replaced by a back quote. -/
theorem getHelpText_eq :
    getHelpText = "###### Mattermost MS Teams Meetings Plugin - Slash Command Help\n* `/mstmeetings start` - Start an MS Teams meeting.\n\t* `/mstmeetings disconnect` - Disconnect from Mattermost" := by
  decide

/-- C5: the trigger alone, or the trigger followed by "help" and any further
tokens, gives exactly the help text with a nil error and an unchanged trace;
the help text is a fixed string whose first line is the header. -/
theorem executeCommand_help (p : Plugin) (t : Trace) (args : CommandArgs)
    (hf : Fields args.Command = ["/mstmeetings"]
      ∨ ∃ rest, Fields args.Command = "/mstmeetings" :: "help" :: rest) :
    executeCommand p t args = Outcome.ok (getHelpText, none) t
    ∧ getHelpText = "###### Mattermost MS Teams Meetings Plugin - Slash Command Help\n* `/mstmeetings start` - Start an MS Teams meeting.\n\t* `/mstmeetings disconnect` - Disconnect from Mattermost"
    ∧ ∃ body, getHelpText
        = "###### Mattermost MS Teams Meetings Plugin - Slash Command Help" ++ "\n" ++ body := by
  refine ⟨?_, getHelpText_eq, ReplaceAll commandHelp "|" "`", rfl⟩
  rcases hf with hf | ⟨rest, hf⟩
  · simp [executeCommand, hf, handleHelp]
  · simp [executeCommand, hf, handleHelp]

theorem executeCommand_help_witness :
    executeCommand demoPlugin [] ⟨"/mstmeetings help me now", "user1", "chan1"⟩
      = Outcome.ok (getHelpText, none) [] :=
  (executeCommand_help demoPlugin [] ⟨"/mstmeetings help me now", "user1", "chan1"⟩
    (Or.inr ⟨["me", "now"], by decide⟩)).1

/-- C6: a second token that is none of "start", "disconnect", "help" (compared
exactly, so "Start" is unknown) gives a nil error, an unchanged trace and the
text made of the unknown-action line naming the token followed by the whole
help text; so the text contains the token and the help text. -/
theorem executeCommand_unknown_action (p : Plugin) (t : Trace) (args : CommandArgs)
    (action : String) (rest : List String)
    (hf : Fields args.Command = "/mstmeetings" :: action :: rest)
    (h1 : action ≠ "start") (h2 : action ≠ "disconnect") (h3 : action ≠ "help") :
    executeCommand p t args
      = Outcome.ok ("Unknown action `" ++ action ++ "`.\n" ++ getHelpText, none) t
    ∧ (∃ pre suf, "Unknown action `" ++ action ++ "`.\n" ++ getHelpText = pre ++ action ++ suf)
    ∧ (∃ pre, "Unknown action `" ++ action ++ "`.\n" ++ getHelpText = pre ++ getHelpText) := by
  refine ⟨?_, ⟨"Unknown action `", "`.\n" ++ getHelpText, ?_⟩,
    ⟨"Unknown action `" ++ action ++ "`.\n", rfl⟩⟩
  · simp [executeCommand, hf, h1, h2, h3]
  · simp [String.append_assoc]

theorem executeCommand_unknown_action_witness :
    executeCommand demoPlugin [] ⟨"/mstmeetings Start now", "user1", "chan1"⟩
      = Outcome.ok ("Unknown action `Start`.\n" ++ getHelpText, none) [] :=
  (executeCommand_unknown_action demoPlugin [] ⟨"/mstmeetings Start now", "user1", "chan1"⟩
    "Start" ["now"] (by decide) (by decide) (by decide) (by decide)).1

/-! ## Argument count of `start` and `disconnect` -/

/-- With at most one element in `args`, `handleStartConfirm` first calls
`GetUser` for the caller and never answers with the too-many-parameters text. -/
theorem handleStartConfirm_proceeds (p : Plugin) (t : Trace) (args : List String)
    (extra : CommandArgs) (h : args.length ≤ 1) :
    (∃ more, (handleStartConfirm p t args extra).trace = t ++ Call.GetUser extra.UserId :: more)
    ∧ ∀ e tr, handleStartConfirm p t args extra ≠ Outcome.ok (tooManyParametersText, e) tr := by
  have h0 : ¬ (1 < args.length) := by omega
  constructor
  · simp only [handleStartConfirm, gt_iff_lt, h0, if_false]
    repeat' split
    all_goals
      apply Exists.intro
      simp only [Outcome.trace, List.append_assoc, List.singleton_append, List.cons_append,
        List.nil_append]
      rfl
  · intro e tr
    simp only [handleStartConfirm, gt_iff_lt, h0, if_false]
    repeat' split
    all_goals simp [tooManyParametersText]

/-- With at most one element in `args`, `handleDisconnect` first calls
`disconnect` for the caller and never answers with the too-many-parameters
text. -/
theorem handleDisconnect_proceeds (p : Plugin) (t : Trace) (args : List String)
    (extra : CommandArgs) (h : args.length ≤ 1) :
    (∃ more, (handleDisconnect p t args extra).trace = t ++ Call.disconnect extra.UserId :: more)
    ∧ ∀ e tr, handleDisconnect p t args extra ≠ Outcome.ok (tooManyParametersText, e) tr := by
  have h0 : ¬ (1 < args.length) := by omega
  constructor
  · simp only [handleDisconnect, gt_iff_lt, h0, if_false]
    split
    all_goals
      apply Exists.intro
      simp only [Outcome.trace, List.append_assoc, List.singleton_append, List.cons_append,
        List.nil_append]
      rfl
  · intro e tr
    simp only [handleDisconnect, gt_iff_lt, h0, if_false]
    split
    · simp only [tooManyParametersText, ne_eq, Outcome.ok.injEq, Prod.mk.injEq, not_and]
      rintro ⟨hs, _⟩
      have h1 := congrArg (fun s : String => s.data.head?) hs
      simp at h1
    · simp [tooManyParametersText]

/-- C2 as stated fails: with exactly one extra argument after the action,
both "start" and "disconnect" answer "Too many parameters." and make no call,
because the handlers receive the action token as the first element of `args`. -/
theorem executeCommand_one_extra_argument_rejected :
    executeCommand demoPlugin [] ⟨"/mstmeetings disconnect extra1", "user1", "chan1"⟩
      = Outcome.ok ("Too many parameters.", none) []
    ∧ executeCommand demoPlugin [] ⟨"/mstmeetings start extra1", "user1", "chan1"⟩
      = Outcome.ok ("Too many parameters.", none) [] := by
  constructor <;> decide

/-- C2 amended: after the trigger and the action "start" or "disconnect", a
command with no extra argument is accepted (the result is never the
too-many-parameters text and the handler makes its first external call,
`GetUser` for "start" and `disconnect` for "disconnect"), and a command with
one or more extra arguments is rejected with "Too many parameters.", a nil
error and no call. -/
theorem executeCommand_extra_arguments (p : Plugin) (t : Trace) (args : CommandArgs)
    (action : String) (rest : List String)
    (hf : Fields args.Command = "/mstmeetings" :: action :: rest)
    (ha : action = "start" ∨ action = "disconnect") :
    (rest = [] →
      (∀ e tr, executeCommand p t args ≠ Outcome.ok ("Too many parameters.", e) tr)
      ∧ (action = "start" →
          ∃ more, (executeCommand p t args).trace = t ++ Call.GetUser args.UserId :: more)
      ∧ (action = "disconnect" →
          ∃ more, (executeCommand p t args).trace = t ++ Call.disconnect args.UserId :: more))
    ∧ (rest ≠ [] → executeCommand p t args = Outcome.ok ("Too many parameters.", none) t) := by
  constructor
  · rintro rfl
    rcases ha with rfl | rfl
    · have hx : executeCommand p t args = handleStartConfirm p t ["start"] args := by
        simp [executeCommand, hf]
      have hs := handleStartConfirm_proceeds p t ["start"] args (by simp)
      rw [hx]
      exact ⟨hs.2, fun _ => hs.1, fun hd => absurd hd (by decide)⟩
    · have hx : executeCommand p t args = handleDisconnect p t ["disconnect"] args := by
        simp [executeCommand, hf]
      have hs := handleDisconnect_proceeds p t ["disconnect"] args (by simp)
      rw [hx]
      exact ⟨hs.2, fun hd => absurd hd (by decide), fun _ => hs.1⟩
  · intro hr
    obtain ⟨x, xs, rfl⟩ := List.exists_cons_of_ne_nil hr
    rcases ha with rfl | rfl <;>
      simp [executeCommand, hf, handleStartConfirm, handleDisconnect, tooManyParametersText]

theorem executeCommand_extra_arguments_witness :
    ∃ more, (executeCommand demoPlugin [] ⟨"/mstmeetings disconnect", "user1", "chan1"⟩).trace
      = [] ++ Call.disconnect "user1" :: more :=
  ((executeCommand_extra_arguments demoPlugin [] ⟨"/mstmeetings disconnect", "user1", "chan1"⟩
    "disconnect" [] (by decide) (Or.inr rfl)).1 rfl).2.2 rfl

/-! ## The disconnect handler -/

/-- C7: with at most one element in `args`, a failing disconnect call gives
the failure text ending in the error's own text, a nil error and no analytics
event; a successful one records exactly one disconnect analytics event for
the caller and gives the confirmation text with a nil error. Whatever `args`
is, `handleDisconnect` returns, and its error is nil. -/
theorem handleDisconnect_result (p : Plugin) (t : Trace) (args : List String)
    (extra : CommandArgs) (h : args.length ≤ 1) :
    (∀ e, p.disconnect t extra.UserId = some e →
      handleDisconnect p t args extra
        = Outcome.ok ("Failed to disconnect the user, err=" ++ e.Error, none)
            (t ++ [Call.disconnect extra.UserId])
      ∧ trackedDisconnects (handleDisconnect p t args extra).trace = trackedDisconnects t)
    ∧ (p.disconnect t extra.UserId = none →
      handleDisconnect p t args extra
        = Outcome.ok ("User disconnected from MS Teams Meetings.", none)
            (t ++ [Call.disconnect extra.UserId, Call.trackDisconnect extra.UserId])
      ∧ trackedDisconnects (handleDisconnect p t args extra).trace
        = trackedDisconnects t ++ [extra.UserId])
    ∧ (∀ args2 : List String, ∃ text tr,
      handleDisconnect p t args2 extra = Outcome.ok (text, none) tr) := by
  have h0 : ¬ (1 < args.length) := by omega
  refine ⟨?_, ?_, ?_⟩
  · intro e he
    simp [handleDisconnect, h0, he, Outcome.trace, trackedDisconnects]
  · intro he
    simp [handleDisconnect, h0, he, Outcome.trace, trackedDisconnects]
  · intro args2
    unfold handleDisconnect
    split
    · exact ⟨_, _, rfl⟩
    · split <;> exact ⟨_, _, rfl⟩

theorem handleDisconnect_result_witness :
    handleDisconnect failingPlugin [] ["disconnect"] ⟨"/mstmeetings disconnect", "user1", "chan1"⟩
      = Outcome.ok ("Failed to disconnect the user, err=" ++ (GoError.other "token not found").Error,
          none) ([] ++ [Call.disconnect "user1"]) :=
  ((handleDisconnect_result failingPlugin [] ["disconnect"]
    ⟨"/mstmeetings disconnect", "user1", "chan1"⟩ (by decide)).1 (GoError.other "token not found")
    rfl).1

/-! ## The start handler -/

/-- C8: with at most one element in `args`, a failing user lookup gives
"User not found." with the wrapped error; a failing channel lookup, or a
failing membership fetch in a direct or group channel, gives the empty text
with that error. In each case the error is non-nil and no post is submitted
to `CreatePost`. -/
theorem handleStartConfirm_lookup_failures (p : Plugin) (t : Trace) (args : List String)
    (extra : CommandArgs) (h : args.length ≤ 1) :
    (∀ u e, p.API.GetUser t extra.UserId = (u, some e) →
      handleStartConfirm p t args extra
        = Outcome.ok ("User not found.", some (GoError.withMessage (GoError.app e) "cannot get user"))
            (t ++ [Call.GetUser extra.UserId])
      ∧ createdPosts (handleStartConfirm p t args extra).trace = createdPosts t)
    ∧ (∀ u c e, p.API.GetUser t extra.UserId = (u, none) →
      p.API.GetChannel (t ++ [Call.GetUser extra.UserId]) extra.ChannelId = (c, some e) →
      handleStartConfirm p t args extra
        = Outcome.ok ("", some (GoError.app e))
            (t ++ [Call.GetUser extra.UserId] ++ [Call.GetChannel extra.ChannelId])
      ∧ createdPosts (handleStartConfirm p t args extra).trace = createdPosts t)
    ∧ (∀ u channel m e, p.API.GetUser t extra.UserId = (u, none) →
      p.API.GetChannel (t ++ [Call.GetUser extra.UserId]) extra.ChannelId = (some channel, none) →
      channel.IsGroupOrDirect = true →
      p.API.GetChannelMembers (t ++ [Call.GetUser extra.UserId] ++ [Call.GetChannel extra.ChannelId])
        extra.ChannelId 0 100 = (m, some e) →
      handleStartConfirm p t args extra
        = Outcome.ok ("", some (GoError.app e))
            (t ++ [Call.GetUser extra.UserId] ++ [Call.GetChannel extra.ChannelId]
              ++ [Call.GetChannelMembers extra.ChannelId 0 100])
      ∧ createdPosts (handleStartConfirm p t args extra).trace = createdPosts t) := by
  have h0 : ¬ (1 < args.length) := by omega
  refine ⟨?_, ?_, ?_⟩
  · intro u e hu
    simp [handleStartConfirm, h0, hu, Wrap, Outcome.trace, createdPosts]
  · intro u c e hu hc
    simp only [handleStartConfirm, gt_iff_lt, h0, if_false, hu, hc]
    simp [Outcome.trace, createdPosts]
  · intro u channel m e hu hc hd hm
    simp only [handleStartConfirm, gt_iff_lt, h0, if_false, hu, hc, hd, if_true, hm]
    simp [Outcome.trace, createdPosts]

theorem handleStartConfirm_lookup_failures_witness :
    handleStartConfirm failingPlugin [] ["start"] ⟨"/mstmeetings start", "user1", "chan1"⟩
      = Outcome.ok ("User not found.",
          some (GoError.withMessage (GoError.app ⟨"GetUser", "no such user", ""⟩) "cannot get user"))
          ([] ++ [Call.GetUser "user1"]) :=
  ((handleStartConfirm_lookup_failures failingPlugin [] ["start"]
    ⟨"/mstmeetings start", "user1", "chan1"⟩ (by decide)).1 none _ rfl).1

/-- The membership-count line as one literal followed by the count. -/
theorem memberLine_eq (x : String) :
    "" ++ ("\n" ++ ("You are about a create a meeting in a channel with " ++ x ++ " members"))
      = "\nYou are about a create a meeting in a channel with " ++ x ++ " members" := by
  rw [String.empty_append, String.append_assoc, String.append_assoc, ← String.append_assoc "\n"]
  rfl

/-- The membership-count line split around "with N members". -/
theorem memberLine_contains (x : String) :
    "\nYou are about a create a meeting in a channel with " ++ x ++ " members"
      = "\nYou are about a create a meeting in a channel " ++ ("with " ++ x ++ " members") ++ "" := by
  rw [String.append_empty, String.append_assoc, String.append_assoc,
    ← String.append_assoc _ "with "]
  rfl

/-- C9: with at most one element in `args` and successful user and channel
lookups, exactly one post is submitted to `CreatePost`, and its `Message`
equals its `Props["message"]`. Outside a direct or group channel the message
is empty; in a direct or group channel whose membership fetch returns the
member list `members`, the message is the membership-count line and contains
"with N members" for N the length of `members`. -/
theorem handleStartConfirm_post_body (p : Plugin) (t : Trace) (args : List String)
    (extra : CommandArgs) (user : User) (channel : Channel) (h : args.length ≤ 1)
    (hu : p.API.GetUser t extra.UserId = (some user, none))
    (hc : p.API.GetChannel (t ++ [Call.GetUser extra.UserId]) extra.ChannelId
      = (some channel, none)) :
    (channel.IsGroupOrDirect = false →
      ∃ post, (handleStartConfirm p t args extra).trace
          = t ++ [Call.GetUser extra.UserId, Call.GetChannel extra.ChannelId, Call.CreatePost post]
        ∧ post.Message = ""
        ∧ post.GetProp "message" = some (PropValue.str post.Message))
    ∧ (channel.IsGroupOrDirect = true → ∀ members : ChannelMembers,
      p.API.GetChannelMembers (t ++ [Call.GetUser extra.UserId] ++ [Call.GetChannel extra.ChannelId])
        extra.ChannelId 0 100 = (some members, none) →
      ∃ post, (handleStartConfirm p t args extra).trace
          = t ++ [Call.GetUser extra.UserId, Call.GetChannel extra.ChannelId,
              Call.GetChannelMembers extra.ChannelId 0 100,
              Call.LogDebug (toString members.length ++ " members in channel " ++ extra.ChannelId),
              Call.CreatePost post]
        ∧ post.Message = "\nYou are about a create a meeting in a channel with "
            ++ toString members.length ++ " members"
        ∧ post.GetProp "message" = some (PropValue.str post.Message)
        ∧ ∃ pre suf, post.Message
            = pre ++ ("with " ++ toString members.length ++ " members") ++ suf) := by
  have h0 : ¬ (1 < args.length) := by omega
  constructor
  · intro hd
    simp only [handleStartConfirm, gt_iff_lt, h0, hu, hc, hd, Bool.false_eq_true, if_false]
    split
    all_goals
      apply Exists.intro
      refine ⟨?_, ?_, ?_⟩
      · simp only [Outcome.trace, List.append_assoc, List.singleton_append, List.cons_append,
          List.nil_append]
        rfl
      · rfl
      · simp [Post.GetProp, List.lookup]
  · intro hd members hm
    simp only [handleStartConfirm, gt_iff_lt, h0, if_false, hu, hc, hd, if_true, hm]
    split
    all_goals
      apply Exists.intro
      refine ⟨?_, ?_, ?_, ?_⟩
      · simp only [Outcome.trace, List.append_assoc, List.singleton_append, List.cons_append,
          List.nil_append]
        rfl
      · exact memberLine_eq _
      · simp [Post.GetProp, List.lookup]
      · exact ⟨"\nYou are about a create a meeting in a channel ", "",
          (memberLine_eq _).trans (memberLine_contains _)⟩

theorem handleStartConfirm_post_body_witness :
    ∃ post, Call.CreatePost post
        ∈ (handleStartConfirm directPlugin [] ["start"] ⟨"/mstmeetings start", "user1", "chan1"⟩).trace
      ∧ post.Message = "\nYou are about a create a meeting in a channel with 2 members" := by
  obtain ⟨post, htr, hm, _, _⟩ :=
    (handleStartConfirm_post_body directPlugin [] ["start"] ⟨"/mstmeetings start", "user1", "chan1"⟩
      ⟨"user1", "alice"⟩ ⟨"chan1", "D"⟩ (by decide) rfl rfl).2 (by decide)
      [⟨"chan1", "u1"⟩, ⟨"chan1", "u2"⟩] rfl
  exact ⟨post, by rw [htr]; simp, by rw [hm]; decide⟩

/-! ## The entry point `ExecuteCommand` -/

/-- No ephemeral post is sent by `handleStartConfirm`. -/
theorem handleStartConfirm_ephemeralPosts (p : Plugin) (t : Trace) (args : List String)
    (extra : CommandArgs) :
    ephemeralPosts (handleStartConfirm p t args extra).trace = ephemeralPosts t := by
  simp only [handleStartConfirm]
  repeat' split
  all_goals simp [Outcome.trace, ephemeralPosts, List.filterMap_append]

/-- No ephemeral post is sent by `handleDisconnect`. -/
theorem handleDisconnect_ephemeralPosts (p : Plugin) (t : Trace) (args : List String)
    (extra : CommandArgs) :
    ephemeralPosts (handleDisconnect p t args extra).trace = ephemeralPosts t := by
  simp only [handleDisconnect]
  repeat' split
  all_goals simp [Outcome.trace, ephemeralPosts, List.filterMap_append]

/-- No ephemeral post is sent by `executeCommand` itself. -/
theorem executeCommand_ephemeralPosts (p : Plugin) (t : Trace) (args : CommandArgs) :
    ephemeralPosts (executeCommand p t args).trace = ephemeralPosts t := by
  simp only [executeCommand]
  repeat' split
  all_goals
    first
      | exact handleStartConfirm_ephemeralPosts p t _ args
      | exact handleDisconnect_ephemeralPosts p t _ args
      | simp [Outcome.trace, handleHelp]

/-- C10: whenever `executeCommand` returns `(text, err)`, `ExecuteCommand`
returns the empty `CommandResponse` and no `AppError`, whatever `err` is;
after the calls of `executeCommand` it logs a warning when `err` is non-nil
and then sends one ephemeral post to the invoking user (by the bot, in the
invoking channel, with `Message = text`) when `text` is non-empty. Over the
whole run that is the only ephemeral post sent, and none is sent when `text`
is empty. -/
theorem ExecuteCommand_acknowledges (p : Plugin) (t : Trace) (args : CommandArgs)
    (text : String) (err : Option GoError) (t1 : Trace)
    (h : executeCommand p t args = Outcome.ok (text, err) t1) :
    ExecuteCommand p t args
      = Outcome.ok (CommandResponse.empty, none)
          (t1
            ++ (match err with
                | some e => [Call.LogWarn "failed to execute command" ["error", e.Error]]
                | none => [])
            ++ (if text = "" then []
                else [Call.SendEphemeralPost args.UserId
                  { UserId := p.botUserID, ChannelId := args.ChannelId, Message := text,
                    Type_ := "", Props := [] }]))
    ∧ ephemeralPosts (ExecuteCommand p t args).trace
      = ephemeralPosts t
        ++ (if text = "" then []
            else [(args.UserId,
              { UserId := p.botUserID, ChannelId := args.ChannelId, Message := text,
                Type_ := "", Props := [] })]) := by
  have ht : ephemeralPosts t1 = ephemeralPosts t := by
    have := executeCommand_ephemeralPosts p t args
    rw [h] at this
    exact this
  have hx : ExecuteCommand p t args
      = Outcome.ok (CommandResponse.empty, none)
          (t1
            ++ (match err with
                | some e => [Call.LogWarn "failed to execute command" ["error", e.Error]]
                | none => [])
            ++ (if text = "" then []
                else [Call.SendEphemeralPost args.UserId
                  { UserId := p.botUserID, ChannelId := args.ChannelId, Message := text,
                    Type_ := "", Props := [] }])) := by
    simp only [ExecuteCommand, h, postCommandResponse]
    cases err <;> by_cases hm : text = "" <;> simp [hm]
  refine ⟨hx, ?_⟩
  rw [hx]
  unfold ephemeralPosts at ht
  cases err <;> by_cases hm : text = "" <;>
    simp [Outcome.trace, ephemeralPosts, List.filterMap_append, hm, ht]

theorem ExecuteCommand_acknowledges_witness :
    ephemeralPosts
        (ExecuteCommand failingPlugin [] ⟨"/mstmeetings start", "user1", "chan1"⟩).trace
      = ephemeralPosts []
        ++ (if "User not found." = "" then []
            else [("user1",
              { UserId := failingPlugin.botUserID, ChannelId := "chan1", Message := "User not found.",
                Type_ := "", Props := [] })]) :=
  (ExecuteCommand_acknowledges failingPlugin [] ⟨"/mstmeetings start", "user1", "chan1"⟩
    "User not found."
    (some (GoError.withMessage (GoError.app ⟨"GetUser", "no such user", ""⟩) "cannot get user"))
    [Call.GetUser "user1"] (by decide)).2

end MSTeamsMeetings
